import Mathlib

/-!
Verification of the WebGL outline-cube demo (`src/main/ts/index.ts`).

The development shallowly embeds the program:
* the geometry arrays built by `initBuffers` (vertex positions, normal
  averages, barycentric coordinates, triangle indices, line indices);
* the arithmetic of the fragment shader (`edgeFactor`, fog blending) over `ℚ`,
  with the screen-space derivative `fwidth` and the camera distance treated as
  inputs, since they are per-fragment GPU quantities;
* the `gl-matrix` matrix operations used by the per-frame `update` function
  (`mat4.identity`, `mat4.translate`, `mat4.rotateY`, `mat4.rotateX`,
  `mat4.perspective`, `mat4.multiply`) over `ℝ`;
* the mutable GL/JS state touched by `drawScene` and `update` as an explicit
  state record with a trace of uniform uploads and draw calls;
* the startup error paths of `loadShader` / `initShaderProgram` over an
  abstract GL context that reports compile/link success and diagnostic logs.
-/

namespace WebGLOutline

/-! ## Geometry Buffer Builder (`initBuffers`) -/

/-- Vertex positions, 8 vertices x 3 components, exactly as listed in
`initBuffers` (front face then back face). -/
def positions : List ℚ :=
  [-1, -2, 1,
   4, -2, 1,
   1, 2, 1,
   -4, 2, 1,
   -10, -1, -1,
   -10, 1, -1,
   10, 1, -1,
   10, -1, -1]

/-- Per-vertex barycentric coordinates, 8 vertices x 3 components, exactly as
listed in `initBuffers` (`barrycentricCoordinates`, source spelling kept). -/
def barrycentricCoordinates : List ℚ :=
  [1, 0, 0,
   0, 1, 0,
   0, 0, 1,
   0, 1, 0,
   1, 1, 0,
   0, 1, 0,
   0, 1, 1,
   0, 1, 0]

/-- Triangle index list from `initBuffers` (`indices`). -/
def indices : List ℕ :=
  [0, 1, 2, 0, 2, 3,
   4, 5, 6, 4, 6, 7]

/-- Line index list from `initBuffers` (`lineIndices`). -/
def lineIndices : List ℕ :=
  [0, 1, 1, 2, 2, 3, 3, 0,
   4, 5, 5, 6, 6, 7, 7, 4,
   4, 0,
   5, 3,
   6, 2,
   7, 1]

/-- `buffers.indicesCount` in the source. -/
def indicesCount : ℕ := indices.length

/-- `buffers.lineIndicesCount` in the source. -/
def lineIndicesCount : ℕ := lineIndices.length

/-- Number of vertices described by the flat `positions` array
(3 components per vertex, bound with size 3 in `vertexAttribPointer`). -/
def vertexCount : ℕ := positions.length / 3

/-- Read the 3-component vector of vertex `i` out of a flat attribute array
(attributes are bound with size 3, stride 0, offset 0). -/
def vec3At (l : List α) (d : α) (i : ℕ) : α × α × α :=
  (l.getD (3 * i) d, l.getD (3 * i + 1) d, l.getD (3 * i + 2) d)

/-- Barycentric coordinate attribute of vertex `i`. -/
def baryOf (i : ℕ) : ℚ × ℚ × ℚ := vec3At barrycentricCoordinates 0 i

/-- Group an index list into consecutive triples (triangle topology). -/
def chunk3 : List ℕ → List (ℕ × ℕ × ℕ)
  | a :: b :: c :: rest => (a, b, c) :: chunk3 rest
  | _ => []

/-- Group an index list into consecutive pairs (line topology). -/
def chunk2 : List ℕ → List (ℕ × ℕ)
  | a :: b :: rest => (a, b) :: chunk2 rest
  | _ => []

/-- The triangles drawn by `drawElements(TRIANGLES, ...)` over `indices`. -/
def triangles : List (ℕ × ℕ × ℕ) := chunk3 indices

/-- The line segments encoded by `lineIndices`, taken in pairs. -/
def linePairs : List (ℕ × ℕ) := chunk2 lineIndices

/-- An undirected edge written with its smaller endpoint first. -/
def canonPair (p : ℕ × ℕ) : ℕ × ℕ := if p.1 ≤ p.2 then p else (p.2, p.1)

/-- The four edges of the front quad 0-1-2-3 (spec: front face of the cube). -/
def frontQuadEdges : List (ℕ × ℕ) := [(0, 1), (1, 2), (2, 3), (0, 3)]

/-- The four edges of the back quad 4-5-6-7 (spec: back face of the cube). -/
def backQuadEdges : List (ℕ × ℕ) := [(4, 5), (5, 6), (6, 7), (4, 7)]

/-- The four edges joining each front vertex to its corresponding back vertex
(spec: the remaining cube edges connecting the two faces). -/
def crossEdges : List (ℕ × ℕ) := [(0, 4), (3, 5), (2, 6), (1, 7)]

/-- A barycentric triple that is 1 in exactly one component and 0 elsewhere. -/
def oneHot (p : ℚ × ℚ × ℚ) : Prop :=
  p = (1, 0, 0) ∨ p = (0, 1, 0) ∨ p = (0, 0, 1)

instance (p : ℚ × ℚ × ℚ) : Decidable (oneHot p) := by
  unfold oneHot; infer_instance

/-! ## Fragment shader arithmetic (variant-2 single-pass edge + fog)

The GLSL functions are transcribed over `ℚ`.  The screen-space derivative
`fwidth(vBarrycentricCoordinate)` and the camera distance
`length(vPosition)` are inputs of the model: they are per-fragment values
produced by the GPU rasteriser, and the claims quantify over them. -/

/-- GLSL `clamp`. -/
def clamp (x lo hi : ℚ) : ℚ := min (max x lo) hi

/-- GLSL `mix(x, y, a) = x*(1-a) + y*a`. -/
def glslMix (x y a : ℚ) : ℚ := x * (1 - a) + y * a

/-- Componentwise `mix` on 3-vectors. -/
def mix3 (x y : ℚ × ℚ × ℚ) (a : ℚ) : ℚ × ℚ × ℚ :=
  (glslMix x.1 y.1 a, glslMix x.2.1 y.2.1 a, glslMix x.2.2 y.2.2 a)

/-- GLSL `smoothstep(e0, e1, x)`. -/
def smoothstep (e0 e1 x : ℚ) : ℚ :=
  let t := clamp ((x - e0) / (e1 - e0)) 0 1
  t * t * (3 - 2 * t)

/-- The shader's `edgeFactor()`: componentwise
`smoothstep(0, fwidth*uLineWidth, vBarrycentricCoordinate)`, then the minimum
of the three components.  `d` stands for `fwidth(vBarrycentricCoordinate)`. -/
def edgeFactor (d : ℚ × ℚ × ℚ) (uLineWidth : ℚ) (b : ℚ × ℚ × ℚ) : ℚ :=
  min (min (smoothstep 0 (d.1 * uLineWidth) b.1)
           (smoothstep 0 (d.2.1 * uLineWidth) b.2.1))
      (smoothstep 0 (d.2.2 * uLineWidth) b.2.2)

/-- The shader's `fogginess` expression:
`min(1.0, max(0.0, (uMaxFogDistance-distance) / (uMaxFogDistance - uMinFogDistance)))`. -/
def fogginess (uMinFogDistance uMaxFogDistance dist : ℚ) : ℚ :=
  min 1 (max 0 ((uMaxFogDistance - dist) / (uMaxFogDistance - uMinFogDistance)))

/-- The unfogged shaded color `mix(uLineColor, uFillColor, edgeFactor())`. -/
def shadedColor (uLineColor uFillColor : ℚ × ℚ × ℚ) (d : ℚ × ℚ × ℚ)
    (uLineWidth : ℚ) (b : ℚ × ℚ × ℚ) : ℚ × ℚ × ℚ :=
  mix3 uLineColor uFillColor (edgeFactor d uLineWidth b)

/-- The rgb part of `gl_FragColor`:
`mix(uFogColor, mix(uLineColor, uFillColor, edgeFactor()), fogginess)`.
`dist` stands for the shader's `distance` variable
`sqrt(vPosition.x^2 + vPosition.y^2 + vPosition.z^2)`. -/
def gl_FragColor (uFogColor uLineColor uFillColor : ℚ × ℚ × ℚ)
    (uMinFogDistance uMaxFogDistance : ℚ) (d : ℚ × ℚ × ℚ) (uLineWidth : ℚ)
    (b : ℚ × ℚ × ℚ) (dist : ℚ) : ℚ × ℚ × ℚ :=
  mix3 uFogColor (shadedColor uLineColor uFillColor d uLineWidth b)
    (fogginess uMinFogDistance uMaxFogDistance dist)

/-! ## Normal averages (`initBuffers`, real-valued)

`initBuffers` sets `let u = Math.sqrt(1/3)` and builds the
`vertexNormalAverages` array from `±u`; the exact real square root stands in
for the floating-point one. -/

noncomputable section

/-- `let u = Math.sqrt(1/3)` in `initBuffers`. -/
def u : ℝ := Real.sqrt (1 / 3)

/-- The `vertexNormalAverages` array, 8 vertices x 3 components, exactly as
listed in `initBuffers` (front face then back face). -/
def vertexNormalAverages : List ℝ :=
  [-u, -u, u,
   u, -u, u,
   u, u, u,
   -u, u, u,
   -u, -u, -u,
   -u, u, -u,
   u, u, -u,
   u, -u, -u]

/-- Normal-average attribute of vertex `i`. -/
def normalOf (i : ℕ) : ℝ × ℝ × ℝ := vec3At vertexNormalAverages 0 i

/-- Position attribute of vertex `i`, cast to `ℝ`. -/
def positionOf (i : ℕ) : ℝ × ℝ × ℝ :=
  (((vec3At positions 0 i).1 : ℚ), ((vec3At positions 0 i).2.1 : ℚ),
   ((vec3At positions 0 i).2.2 : ℚ))

end

/-! ## gl-matrix 4x4 operations used by the demo

Matrices are in gl-matrix's flat column-major layout: field `eN` is the array
entry `out[N]`, so column `c` occupies entries `4*c .. 4*c+3`. -/

noncomputable section

@[ext]
structure Mat4 where
  (e0 e1 e2 e3 e4 e5 e6 e7 e8 e9 e10 e11 e12 e13 e14 e15 : ℝ)

/-- `mat4.create()`: a fresh identity matrix. -/
def mat4create : Mat4 :=
  ⟨1, 0, 0, 0, 0, 1, 0, 0, 0, 0, 1, 0, 0, 0, 0, 1⟩

/-- `mat4.identity(out)`: overwrites `out` with the identity (the previous
contents are irrelevant). -/
def mat4identity (_a : Mat4) : Mat4 := mat4create

/-- `mat4.multiply(out, a, b)`: column-major product `a * b`
(`out[4j+r] = sum_k b[4j+k] * a[4k+r]`), transcribed entrywise from
gl-matrix. -/
def mat4mul (a b : Mat4) : Mat4 where
  e0 := b.e0 * a.e0 + b.e1 * a.e4 + b.e2 * a.e8 + b.e3 * a.e12
  e1 := b.e0 * a.e1 + b.e1 * a.e5 + b.e2 * a.e9 + b.e3 * a.e13
  e2 := b.e0 * a.e2 + b.e1 * a.e6 + b.e2 * a.e10 + b.e3 * a.e14
  e3 := b.e0 * a.e3 + b.e1 * a.e7 + b.e2 * a.e11 + b.e3 * a.e15
  e4 := b.e4 * a.e0 + b.e5 * a.e4 + b.e6 * a.e8 + b.e7 * a.e12
  e5 := b.e4 * a.e1 + b.e5 * a.e5 + b.e6 * a.e9 + b.e7 * a.e13
  e6 := b.e4 * a.e2 + b.e5 * a.e6 + b.e6 * a.e10 + b.e7 * a.e14
  e7 := b.e4 * a.e3 + b.e5 * a.e7 + b.e6 * a.e11 + b.e7 * a.e15
  e8 := b.e8 * a.e0 + b.e9 * a.e4 + b.e10 * a.e8 + b.e11 * a.e12
  e9 := b.e8 * a.e1 + b.e9 * a.e5 + b.e10 * a.e9 + b.e11 * a.e13
  e10 := b.e8 * a.e2 + b.e9 * a.e6 + b.e10 * a.e10 + b.e11 * a.e14
  e11 := b.e8 * a.e3 + b.e9 * a.e7 + b.e10 * a.e11 + b.e11 * a.e15
  e12 := b.e12 * a.e0 + b.e13 * a.e4 + b.e14 * a.e8 + b.e15 * a.e12
  e13 := b.e12 * a.e1 + b.e13 * a.e5 + b.e14 * a.e9 + b.e15 * a.e13
  e14 := b.e12 * a.e2 + b.e13 * a.e6 + b.e14 * a.e10 + b.e15 * a.e14
  e15 := b.e12 * a.e3 + b.e13 * a.e7 + b.e14 * a.e11 + b.e15 * a.e15

/-- `mat4.translate(out, a, [x,y,z])` in the `out === a` branch: the first
three columns are unchanged and the fourth becomes `a * (x,y,z,1)`. -/
def mat4translate (a : Mat4) (x y z : ℝ) : Mat4 :=
  { a with
    e12 := a.e0 * x + a.e4 * y + a.e8 * z + a.e12
    e13 := a.e1 * x + a.e5 * y + a.e9 * z + a.e13
    e14 := a.e2 * x + a.e6 * y + a.e10 * z + a.e14
    e15 := a.e3 * x + a.e7 * y + a.e11 * z + a.e15 }

/-- `mat4.rotateY(out, a, rad)`: updates columns 0 and 2, transcribed
entrywise from gl-matrix. -/
def mat4rotateY (a : Mat4) (rad : ℝ) : Mat4 :=
  let s := Real.sin rad
  let c := Real.cos rad
  { a with
    e0 := a.e0 * c - a.e8 * s
    e1 := a.e1 * c - a.e9 * s
    e2 := a.e2 * c - a.e10 * s
    e3 := a.e3 * c - a.e11 * s
    e8 := a.e0 * s + a.e8 * c
    e9 := a.e1 * s + a.e9 * c
    e10 := a.e2 * s + a.e10 * c
    e11 := a.e3 * s + a.e11 * c }

/-- `mat4.rotateX(out, a, rad)`: updates columns 1 and 2, transcribed
entrywise from gl-matrix. -/
def mat4rotateX (a : Mat4) (rad : ℝ) : Mat4 :=
  let s := Real.sin rad
  let c := Real.cos rad
  { a with
    e4 := a.e4 * c + a.e8 * s
    e5 := a.e5 * c + a.e9 * s
    e6 := a.e6 * c + a.e10 * s
    e7 := a.e7 * c + a.e11 * s
    e8 := a.e8 * c - a.e4 * s
    e9 := a.e9 * c - a.e5 * s
    e10 := a.e10 * c - a.e6 * s
    e11 := a.e11 * c - a.e7 * s }

/-- `mat4.perspective(out, fovy, aspect, near, far)` with a finite `far`
(the demo passes `far = 1000`): `f = 1/tan(fovy/2)`, `nf = 1/(near-far)`. -/
def mat4perspective (fovy aspect near far : ℝ) : Mat4 :=
  let f := 1 / Real.tan (fovy / 2)
  let nf := 1 / (near - far)
  ⟨f / aspect, 0, 0, 0,
   0, f, 0, 0,
   0, 0, (far + near) * nf, -1,
   0, 0, 2 * far * near * nf, 0⟩

/-- The canonical translation matrix `T(x,y,z)` (gl-matrix
`fromTranslation`). -/
def translationMat (x y z : ℝ) : Mat4 :=
  ⟨1, 0, 0, 0, 0, 1, 0, 0, 0, 0, 1, 0, x, y, z, 1⟩

/-- The canonical rotation about the vertical axis (gl-matrix
`fromYRotation`). -/
def rotationYMat (rad : ℝ) : Mat4 :=
  ⟨Real.cos rad, 0, -Real.sin rad, 0,
   0, 1, 0, 0,
   Real.sin rad, 0, Real.cos rad, 0,
   0, 0, 0, 1⟩

/-- The canonical rotation about the horizontal axis (gl-matrix
`fromXRotation`). -/
def rotationXMat (rad : ℝ) : Mat4 :=
  ⟨1, 0, 0, 0,
   0, Real.cos rad, Real.sin rad, 0,
   0, -Real.sin rad, Real.cos rad, 0,
   0, 0, 0, 1⟩

/-- The textbook closed-form perspective matrix for vertical field of view
`fovy`, aspect ratio `aspect`, and near/far planes — the formula the spec's
"closed-form perspective matrix" refers to.  Stated with divisions; compared
against `mat4perspective` in the refinement theorem for the projection
claim. -/
def perspectiveClosedForm (fovy aspect near far : ℝ) : Mat4 :=
  ⟨(1 / Real.tan (fovy / 2)) / aspect, 0, 0, 0,
   0, 1 / Real.tan (fovy / 2), 0, 0,
   0, 0, (far + near) / (near - far), -1,
   0, 0, 2 * far * near / (near - far), 0⟩

/-! ## GL / JS mutable state and the per-frame path -/

/-- Primitive topology of a draw call. -/
inductive Topology
  | triangles
  | lines

/-- The GPU buffers created by `initBuffers` (named by the fields of the
record it returns). -/
inductive BufferId
  | position
  | normalAverages
  | barrycentric
  | indexBuffer
  | lineIndexBuffer

/-- One `drawElements` submission, together with the uniform/binding state it
observes: the element buffer bound at submission time and the current value
of the `uVertexOffsetAbsolute` uniform. -/
structure DrawCall where
  mode : Topology
  count : ℕ
  elementBuffer : Option BufferId
  vertexOffset : ℝ

/-- The mutable state of the demo: the module-level matrices and clock, the
relevant GL binding/uniform state, and an observation trace of matrix uploads
and draw calls. -/
structure GLState where
  projectionMatrix : Mat4
  modelViewMatrix : Mat4
  thenTime : ℝ
  boundElementBuffer : Option BufferId
  uVertexOffsetAbsoluteVal : ℝ
  uLineWidthVal : ℝ
  uMinFogDistanceVal : ℝ
  uMaxFogDistanceVal : ℝ
  uFillColorVal : ℝ × ℝ × ℝ
  uLineColorVal : ℝ × ℝ × ℝ
  uFogColorVal : ℝ × ℝ × ℝ
  projectionUploads : List Mat4
  modelViewUploads : List Mat4
  draws : List DrawCall

/-- `gl.bindBuffer(gl.ELEMENT_ARRAY_BUFFER, b)`. -/
def bindElementArrayBuffer (b : BufferId) (s : GLState) : GLState :=
  { s with boundElementBuffer := some b }

/-- `gl.uniformMatrix4fv(uProjectionMatrix, false, projectionMatrix)`:
records the uploaded matrix value. -/
def uploadProjectionMatrix (s : GLState) : GLState :=
  { s with projectionUploads := s.projectionUploads ++ [s.projectionMatrix] }

/-- `gl.uniformMatrix4fv(uModelViewMatrix, false, modelViewMatrix)`. -/
def uploadModelViewMatrix (s : GLState) : GLState :=
  { s with modelViewUploads := s.modelViewUploads ++ [s.modelViewMatrix] }

/-- `gl.uniform3fv(uFillColor, fillColor)`. -/
def setFillColor (v : ℝ × ℝ × ℝ) (s : GLState) : GLState :=
  { s with uFillColorVal := v }

/-- `gl.uniform3fv(uLineColor, lineColor)`. -/
def setLineColor (v : ℝ × ℝ × ℝ) (s : GLState) : GLState :=
  { s with uLineColorVal := v }

/-- `gl.uniform3fv(uFogColor, fogColor)`. -/
def setFogColor (v : ℝ × ℝ × ℝ) (s : GLState) : GLState :=
  { s with uFogColorVal := v }

/-- `gl.uniform1f(uLineWidth, x)`. -/
def setLineWidth (x : ℝ) (s : GLState) : GLState :=
  { s with uLineWidthVal := x }

/-- `gl.uniform1f(uVertexOffsetAbsolute, x)`. -/
def setVertexOffsetAbsolute (x : ℝ) (s : GLState) : GLState :=
  { s with uVertexOffsetAbsoluteVal := x }

/-- `gl.uniform1f(uMinFogDistance, x)`. -/
def setMinFogDistance (x : ℝ) (s : GLState) : GLState :=
  { s with uMinFogDistanceVal := x }

/-- `gl.uniform1f(uMaxFogDistance, x)`. -/
def setMaxFogDistance (x : ℝ) (s : GLState) : GLState :=
  { s with uMaxFogDistanceVal := x }

/-- `gl.drawElements(mode, count, gl.UNSIGNED_SHORT, 0)`: appends a draw call
observing the currently bound element buffer and the current
`uVertexOffsetAbsolute` uniform. -/
def drawElements (mode : Topology) (count : ℕ) (s : GLState) : GLState :=
  { s with
    draws := s.draws ++
      [⟨mode, count, s.boundElementBuffer, s.uVertexOffsetAbsoluteVal⟩] }

/-- `drawScene()`, in source order: bind the triangle index buffer, upload the
projection and model-view matrices, set the color / line-width / offset / fog
uniforms, and issue the single indexed triangle draw.  The line-pass block at
the end of the source function is commented out and therefore absent here.
The array-buffer attribute bindings mutate no state observed by any claim and
are elided. -/
def drawScene (s : GLState) : GLState :=
  drawElements Topology.triangles indicesCount
    (setFogColor (0.15, 0, 0.15)
      (setMaxFogDistance 30
        (setMinFogDistance 20
          (setVertexOffsetAbsolute 0
            (setLineWidth 3
              (setFillColor (0, 0, 0)
                (setLineColor (0, 0.9, 1)
                  (uploadModelViewMatrix
                    (uploadProjectionMatrix
                      (bindElementArrayBuffer BufferId.indexBuffer s))))))))))

/-- The per-frame `update(now)` callback: rebuilds `modelViewMatrix` from the
identity (`mat4.identity`, then `mat4.translate` by
`[0, 0, -25 + 5*sin(now*0.0005)]`, then `mat4.rotateY(now*0.001)`, then
`mat4.rotateX(now*0.0001)`), draws the scene, and stores `now` in `then`. -/
def update (s : GLState) (now : ℝ) : GLState :=
  let s1 :=
    { s with
      modelViewMatrix :=
        mat4rotateX
          (mat4rotateY
            (mat4translate (mat4identity s.modelViewMatrix) 0 0
              (-25 + 5 * Real.sin (now * 0.0005)))
            (now * 0.001))
          (now * 0.0001) }
  let s2 := drawScene s1
  { s2 with thenTime := now }

/-- The module state right after startup: the projection matrix is computed
once by `mat4.perspective(out, PI/4, width/height, 0.1, 1000)`,
`modelViewMatrix` is `mat4.create()`, `then` is 0, and nothing has been bound,
uploaded or drawn yet (WebGL uniforms start at zero). -/
def initState (aspect : ℝ) : GLState where
  projectionMatrix := mat4perspective (Real.pi / 4) aspect 0.1 1000
  modelViewMatrix := mat4create
  thenTime := 0
  boundElementBuffer := none
  uVertexOffsetAbsoluteVal := 0
  uLineWidthVal := 0
  uMinFogDistanceVal := 0
  uMaxFogDistanceVal := 0
  uFillColorVal := (0, 0, 0)
  uLineColorVal := (0, 0, 0)
  uFogColorVal := (0, 0, 0)
  projectionUploads := []
  modelViewUploads := []
  draws := []

/-- The render loop: `update(0)` is called at the end of `onload`, and every
later animation frame calls `update` with its timestamp; the loop is the left
fold of `update` over the timestamp sequence. -/
def runFrames (s : GLState) (ts : List ℝ) : GLState :=
  ts.foldl update s

end

/-! ## Shader Program Builder (startup error paths)

The GL context is abstracted to the outcomes the code branches on: whether a
shader of a given type compiles, whether the program links, and the
diagnostic logs the context would report.  JavaScript `throw` of a string is
modelled with `Except String`; `console.error` and `gl.deleteShader` are
recorded as actions. -/

/-- The two shader types passed to `loadShader`. -/
inductive ShaderType
  | vertex
  | fragment

/-- Abstract GL context outcomes observed by the startup code. -/
structure GLContext where
  compileOk : ShaderType → String → Bool
  shaderInfoLog : ShaderType → String
  linkOk : Bool
  programInfoLog : String

/-- Observable side effects of the startup path. -/
inductive Action
  | consoleErrorCompile (source log : String)
  | deleteShader (ty : ShaderType)
  | consoleErrorLink (log : String)

/-- `loadShader(type, source)`: on compile failure it logs the shader info
log, deletes the shader, and throws `'shader compilation error'`; on success
it returns the shader. -/
def loadShader (gl : GLContext) (ty : ShaderType) (source : String) :
    Except String ShaderType × List Action :=
  if gl.compileOk ty source then (Except.ok ty, [])
  else
    (Except.error "shader compilation error",
     [Action.consoleErrorCompile source (gl.shaderInfoLog ty),
      Action.deleteShader ty])

/-- `initShaderProgram(fragmentShaderSource, vertexShaderSource)`: compiles
the vertex shader, then the fragment shader, then links; on link failure it
logs the program info log and throws `'program link error'`.  A thrown error
propagates (aborting `onload`). -/
def initShaderProgram (gl : GLContext) (fragSrc vertSrc : String) :
    Except String Unit × List Action :=
  match loadShader gl ShaderType.vertex vertSrc with
  | (Except.error e, as) => (Except.error e, as)
  | (Except.ok _, as1) =>
    match loadShader gl ShaderType.fragment fragSrc with
    | (Except.error e, as2) => (Except.error e, as1 ++ as2)
    | (Except.ok _, as2) =>
      if gl.linkOk then (Except.ok (), as1 ++ as2)
      else
        (Except.error "program link error",
         as1 ++ as2 ++ [Action.consoleErrorLink gl.programInfoLog])

noncomputable section

/-- The whole `onload` body: `initShaderProgram` runs first; an error thrown
there propagates out of `onload`, so the render loop is never entered.  On
success the projection matrix is built, buffers are created, and the loop
runs `update(0)` followed by one `update` per animation-frame timestamp. -/
def onloadModel (gl : GLContext) (fragSrc vertSrc : String) (aspect : ℝ)
    (ts : List ℝ) : Except String GLState × List Action :=
  match initShaderProgram gl fragSrc vertSrc with
  | (Except.error e, as) => (Except.error e, as)
  | (Except.ok _, as) => (Except.ok (runFrames (initState aspect) (0 :: ts)), as)

end

/-- A GL context on which every shader compilation fails (used to exercise the
startup error path at a concrete input). -/
def glFailCompile : GLContext :=
  ⟨fun _ _ => false, fun _ => "compile log", false, "link log"⟩

/-!
# Theorems
-/

/-- C6: every element of the triangle index list and of the line index list is
strictly below the vertex count (`positions.length / 3 = 8`); the triangle
index list's length is a multiple of 3; the line index list's length is a
multiple of 2. -/
theorem index_lists_within_bounds_and_aligned :
    (∀ i ∈ indices, i < positions.length / 3) ∧
    (∀ i ∈ lineIndices, i < positions.length / 3) ∧
    positions.length / 3 = 8 ∧
    indices.length % 3 = 0 ∧
    lineIndices.length % 2 = 0 := by
  decide

/-- C8: the triangle index list describes exactly 4 triangles — 2 with front
face vertices (indices below 4) and 2 with back face vertices — and the line
index list holds 24 indices forming 12 pairs, which are exactly the 12 edges
of the cube: the 4 front-quad edges, the 4 back-quad edges, and 4 edges
matching each front vertex with a distinct back vertex. -/
theorem four_triangles_and_twelve_cube_edges :
    triangles.length = 4 ∧
    triangles = [(0, 1, 2), (0, 2, 3), (4, 5, 6), (4, 6, 7)] ∧
    (∀ t ∈ triangles.take 2, t.1 < 4 ∧ t.2.1 < 4 ∧ t.2.2 < 4) ∧
    (∀ t ∈ triangles.drop 2,
      (4 ≤ t.1 ∧ t.1 < 8) ∧ (4 ≤ t.2.1 ∧ t.2.1 < 8) ∧ (4 ≤ t.2.2 ∧ t.2.2 < 8)) ∧
    lineIndices.length = 24 ∧
    linePairs.length = 12 ∧
    (linePairs.map canonPair).Nodup ∧
    (linePairs.map canonPair).Perm (frontQuadEdges ++ backQuadEdges ++ crossEdges) ∧
    (crossEdges.map Prod.fst).Perm [0, 1, 2, 3] ∧
    (crossEdges.map Prod.snd).Perm [4, 5, 6, 7] := by
  decide

/-- C10: the barycentric attribute array is not vertexwise one-hot: vertex 4
carries `(1,1,0)` and front-face vertices 1 and 3 both carry `(0,1,0)`; in
particular the drawn triangle `(4,5,6)` does not carry the three distinct
one-hot coordinates. -/
theorem barycentric_coordinates_not_all_one_hot :
    baryOf 4 = (1, 1, 0) ∧
    baryOf 1 = (0, 1, 0) ∧
    baryOf 3 = (0, 1, 0) ∧
    ¬ oneHot (baryOf 4) ∧
    (4, 5, 6) ∈ triangles ∧
    ¬ ([baryOf 4, baryOf 5, baryOf 6].Perm [(1, 0, 0), (0, 1, 0), (0, 0, 1)]) := by
  decide

/-! Helper lemmas about the shader's `mix` and `fogginess`. -/

lemma glslMix_zero (x y : ℚ) : glslMix x y 0 = x := by
  unfold glslMix; ring

lemma glslMix_one (x y : ℚ) : glslMix x y 1 = y := by
  unfold glslMix; ring

lemma mix3_zero (x y : ℚ × ℚ × ℚ) : mix3 x y 0 = x := by
  unfold mix3
  rw [glslMix_zero, glslMix_zero, glslMix_zero]

lemma mix3_one (x y : ℚ × ℚ × ℚ) : mix3 x y 1 = y := by
  unfold mix3
  rw [glslMix_one, glslMix_one, glslMix_one]

lemma fogginess_of_le_min {minF maxF dist : ℚ} (h : minF < maxF)
    (hd : dist ≤ minF) : fogginess minF maxF dist = 1 := by
  unfold fogginess
  have hpos : 0 < maxF - minF := by linarith
  have h1 : 1 ≤ (maxF - dist) / (maxF - minF) := (one_le_div hpos).mpr (by linarith)
  rw [max_eq_right (by linarith), min_eq_left h1]

lemma fogginess_of_ge_max {minF maxF dist : ℚ} (h : minF < maxF)
    (hd : maxF ≤ dist) : fogginess minF maxF dist = 0 := by
  unfold fogginess
  have hr : (maxF - dist) / (maxF - minF) ≤ 0 :=
    div_nonpos_of_nonpos_of_nonneg (by linarith) (by linarith)
  rw [max_eq_left hr, min_eq_right (by norm_num)]

lemma fogginess_of_between {minF maxF dist : ℚ} (h : minF < maxF)
    (h1 : minF ≤ dist) (h2 : dist ≤ maxF) :
    fogginess minF maxF dist = (maxF - dist) / (maxF - minF) := by
  unfold fogginess
  have hpos : 0 < maxF - minF := by linarith
  have hr0 : 0 ≤ (maxF - dist) / (maxF - minF) :=
    div_nonneg (by linarith) (by linarith)
  have hr1 : (maxF - dist) / (maxF - minF) ≤ 1 :=
    (div_le_one hpos).mpr (by linarith)
  rw [max_eq_right hr0, min_eq_right hr1]

/-- C4: with fog bounds `uMinFogDistance < uMaxFogDistance` (the frame sets
20 and 30), a fragment at distance at most `uMinFogDistance` keeps the
unfogged shaded color, a fragment at distance at least `uMaxFogDistance` gets
the fog color, and in between the output is the linear interpolation between
fog color and shaded color with weight `(uMax - dist) / (uMax - uMin)`. -/
theorem fog_blend_piecewise_linear (uFogColor uLineColor uFillColor : ℚ × ℚ × ℚ)
    (uMinFogDistance uMaxFogDistance : ℚ) (d : ℚ × ℚ × ℚ) (uLineWidth : ℚ)
    (b : ℚ × ℚ × ℚ) (dist : ℚ) (h : uMinFogDistance < uMaxFogDistance) :
    (dist ≤ uMinFogDistance →
      gl_FragColor uFogColor uLineColor uFillColor uMinFogDistance
          uMaxFogDistance d uLineWidth b dist =
        shadedColor uLineColor uFillColor d uLineWidth b) ∧
    (uMaxFogDistance ≤ dist →
      gl_FragColor uFogColor uLineColor uFillColor uMinFogDistance
          uMaxFogDistance d uLineWidth b dist = uFogColor) ∧
    (uMinFogDistance ≤ dist → dist ≤ uMaxFogDistance →
      gl_FragColor uFogColor uLineColor uFillColor uMinFogDistance
          uMaxFogDistance d uLineWidth b dist =
        mix3 uFogColor (shadedColor uLineColor uFillColor d uLineWidth b)
          ((uMaxFogDistance - dist) / (uMaxFogDistance - uMinFogDistance))) := by
  refine ⟨fun hd => ?_, fun hd => ?_, fun h1 h2 => ?_⟩
  · unfold gl_FragColor
    rw [fogginess_of_le_min h hd, mix3_one]
  · unfold gl_FragColor
    rw [fogginess_of_ge_max h hd, mix3_zero]
  · unfold gl_FragColor
    rw [fogginess_of_between h h1 h2]

/-- Witness for the fog theorem at the frame's actual uniforms
(`uMinFogDistance = 20`, `uMaxFogDistance = 30`, fog color `(0.15,0,0.15)`)
and a fully fogged fragment at distance 35. -/
theorem fog_blend_piecewise_linear_witness :
    (20 : ℚ) < 30 ∧
    gl_FragColor (3/20, 0, 3/20) (0, 9/10, 1) (0, 0, 0) 20 30 (1, 1, 1) 3
      (1/3, 1/3, 1/3) 35 = (3/20, 0, 3/20) :=
  ⟨by norm_num,
   (fog_blend_piecewise_linear (3/20, 0, 3/20) (0, 9/10, 1) (0, 0, 0) 20 30
      (1, 1, 1) 3 (1/3, 1/3, 1/3) 35 (by norm_num)).2.1 (by norm_num)⟩

/-! Helper lemmas about `smoothstep`. -/

lemma smoothstep_at_zero (e1 : ℚ) : smoothstep 0 e1 0 = 0 := by
  unfold smoothstep clamp
  norm_num

lemma smoothstep_nonneg (e0 e1 x : ℚ) : 0 ≤ smoothstep e0 e1 x := by
  unfold smoothstep clamp
  have h0 : 0 ≤ min (max ((x - e0) / (e1 - e0)) 0) 1 :=
    le_min (le_max_right _ _) (by norm_num)
  have h1 : min (max ((x - e0) / (e1 - e0)) 0) 1 ≤ 1 := min_le_right _ _
  have := mul_nonneg (mul_nonneg h0 h0) (by linarith :
    (0 : ℚ) ≤ 3 - 2 * min (max ((x - e0) / (e1 - e0)) 0) 1)
  simpa using this

lemma smoothstep_saturated {e1 x : ℚ} (h0 : 0 < e1) (hx : e1 ≤ x) :
    smoothstep 0 e1 x = 1 := by
  unfold smoothstep clamp
  have h1 : 1 ≤ (x - 0) / (e1 - 0) := by
    rw [sub_zero, sub_zero]
    exact (one_le_div h0).mpr hx
  rw [max_eq_left (by linarith), min_eq_right h1]
  norm_num

/-- C5: for any positive scaled edge widths `fwidth * uLineWidth` (each at
most 1/3, as with the fixed line width 3 and small screen-space derivatives),
the shader's edge factor is 0 at each one-hot barycentric coordinate (a
triangle vertex) and 1 at the centroid `(1/3, 1/3, 1/3)`. -/
theorem edge_factor_vertex_and_centroid (d : ℚ × ℚ × ℚ) (uLineWidth : ℚ)
    (h1 : 0 < d.1 * uLineWidth) (h2 : 0 < d.2.1 * uLineWidth)
    (h3 : 0 < d.2.2 * uLineWidth)
    (w1 : d.1 * uLineWidth ≤ 1 / 3) (w2 : d.2.1 * uLineWidth ≤ 1 / 3)
    (w3 : d.2.2 * uLineWidth ≤ 1 / 3) :
    edgeFactor d uLineWidth (1, 0, 0) = 0 ∧
    edgeFactor d uLineWidth (0, 1, 0) = 0 ∧
    edgeFactor d uLineWidth (0, 0, 1) = 0 ∧
    edgeFactor d uLineWidth (1 / 3, 1 / 3, 1 / 3) = 1 := by
  refine ⟨?_, ?_, ?_, ?_⟩
  · show min (min (smoothstep 0 (d.1 * uLineWidth) 1)
        (smoothstep 0 (d.2.1 * uLineWidth) 0))
        (smoothstep 0 (d.2.2 * uLineWidth) 0) = 0
    rw [smoothstep_at_zero, smoothstep_at_zero,
      min_eq_right (smoothstep_nonneg 0 (d.1 * uLineWidth) 1), min_self]
  · show min (min (smoothstep 0 (d.1 * uLineWidth) 0)
        (smoothstep 0 (d.2.1 * uLineWidth) 1))
        (smoothstep 0 (d.2.2 * uLineWidth) 0) = 0
    rw [smoothstep_at_zero, smoothstep_at_zero,
      min_eq_left (smoothstep_nonneg 0 (d.2.1 * uLineWidth) 1), min_self]
  · show min (min (smoothstep 0 (d.1 * uLineWidth) 0)
        (smoothstep 0 (d.2.1 * uLineWidth) 0))
        (smoothstep 0 (d.2.2 * uLineWidth) 1) = 0
    rw [smoothstep_at_zero, smoothstep_at_zero, min_self,
      min_eq_left (smoothstep_nonneg 0 (d.2.2 * uLineWidth) 1)]
  · show min (min (smoothstep 0 (d.1 * uLineWidth) (1 / 3))
        (smoothstep 0 (d.2.1 * uLineWidth) (1 / 3)))
        (smoothstep 0 (d.2.2 * uLineWidth) (1 / 3)) = 1
    rw [smoothstep_saturated h1 w1, smoothstep_saturated h2 w2,
      smoothstep_saturated h3 w3, min_self, min_self]

/-- Witness for the edge-factor theorem with the frame's actual line width 3
and screen-space derivative `(1/10, 1/10, 1/10)`. -/
theorem edge_factor_vertex_and_centroid_witness :
    (0 : ℚ) < 1 / 10 * 3 ∧ (1 : ℚ) / 10 * 3 ≤ 1 / 3 ∧
    edgeFactor (1 / 10, 1 / 10, 1 / 10) 3 (1, 0, 0) = 0 ∧
    edgeFactor (1 / 10, 1 / 10, 1 / 10) 3 (1 / 3, 1 / 3, 1 / 3) = 1 := by
  have h := edge_factor_vertex_and_centroid (1 / 10, 1 / 10, 1 / 10) 3
    (by norm_num) (by norm_num) (by norm_num)
    (by norm_num) (by norm_num) (by norm_num)
  exact ⟨by norm_num, by norm_num, h.1, h.2.2.2⟩

/-! Helper lemmas about the gl-matrix operations and the frame loop. -/

lemma mat4translate_eq_mul (a : Mat4) (x y z : ℝ) :
    mat4translate a x y z = mat4mul a (translationMat x y z) := by
  ext <;> simp [mat4translate, mat4mul, translationMat] <;> ring

lemma mat4rotateY_eq_mul (a : Mat4) (rad : ℝ) :
    mat4rotateY a rad = mat4mul a (rotationYMat rad) := by
  ext <;> simp [mat4rotateY, mat4mul, rotationYMat] <;> ring

lemma mat4rotateX_eq_mul (a : Mat4) (rad : ℝ) :
    mat4rotateX a rad = mat4mul a (rotationXMat rad) := by
  ext <;> simp [mat4rotateX, mat4mul, rotationXMat] <;> ring

lemma mat4mul_create_left (b : Mat4) : mat4mul mat4create b = b := by
  ext <;> simp [mat4mul, mat4create]

lemma mat4mul_create_right (a : Mat4) : mat4mul a mat4create = a := by
  ext <;> simp [mat4mul, mat4create]

lemma rotationYMat_zero : rotationYMat 0 = mat4create := by
  ext <;> simp [rotationYMat, mat4create]

lemma rotationXMat_zero : rotationXMat 0 = mat4create := by
  ext <;> simp [rotationXMat, mat4create]

lemma update_modelViewMatrix (s : GLState) (now : ℝ) :
    (update s now).modelViewMatrix =
      mat4mul (mat4mul (mat4mul mat4create
        (translationMat 0 0 (-25 + 5 * Real.sin (now * 0.0005))))
        (rotationYMat (now * 0.001))) (rotationXMat (now * 0.0001)) := by
  have h : (update s now).modelViewMatrix =
      mat4rotateX
        (mat4rotateY
          (mat4translate (mat4identity s.modelViewMatrix) 0 0
            (-25 + 5 * Real.sin (now * 0.0005)))
          (now * 0.001))
        (now * 0.0001) := rfl
  rw [h]
  simp only [mat4identity]
  rw [mat4translate_eq_mul, mat4rotateY_eq_mul, mat4rotateX_eq_mul]

lemma update_modelViewMatrix_at_zero (s : GLState) :
    (update s 0).modelViewMatrix = translationMat 0 0 (-25) := by
  rw [update_modelViewMatrix]
  norm_num [Real.sin_zero, rotationYMat_zero, rotationXMat_zero,
    mat4mul_create_left, mat4mul_create_right]

lemma update_projectionMatrix (s : GLState) (now : ℝ) :
    (update s now).projectionMatrix = s.projectionMatrix := rfl

lemma runFrames_projectionMatrix (ts : List ℝ) (s : GLState) :
    (runFrames s ts).projectionMatrix = s.projectionMatrix := by
  induction ts generalizing s with
  | nil => rfl
  | cons t ts ih =>
    show (runFrames (update s t) ts).projectionMatrix = s.projectionMatrix
    rw [ih, update_projectionMatrix]

lemma update_projectionUploads (s : GLState) (now : ℝ) :
    (update s now).projectionUploads =
      s.projectionUploads ++ [s.projectionMatrix] := rfl

lemma runFrames_projectionUploads (ts : List ℝ) (s : GLState) :
    (runFrames s ts).projectionUploads =
      s.projectionUploads ++ ts.map fun _ => s.projectionMatrix := by
  induction ts generalizing s with
  | nil => simp [runFrames]
  | cons t ts ih =>
    show (runFrames (update s t) ts).projectionUploads = _
    rw [ih, update_projectionUploads, update_projectionMatrix]
    simp

lemma update_draws (s : GLState) (now : ℝ) :
    (update s now).draws =
      s.draws ++ [⟨Topology.triangles, indicesCount,
        some BufferId.indexBuffer, 0⟩] := rfl

lemma runFrames_draws (ts : List ℝ) (s : GLState) :
    (runFrames s ts).draws =
      s.draws ++ ts.map fun _ =>
        (⟨Topology.triangles, indicesCount,
          some BufferId.indexBuffer, 0⟩ : DrawCall) := by
  induction ts generalizing s with
  | nil => simp [runFrames]
  | cons t ts ih =>
    show (runFrames (update s t) ts).draws = _
    rw [ih, update_draws]
    simp

/-- C1 counterexample: at timestamp 0 the model-view matrix is **not**
`translate(0,0,-20)`; its entry 14 (the z translation) is `-25`. -/
theorem modelView_at_zero_not_translate_neg20 :
    (update (initState 1) 0).modelViewMatrix ≠ translationMat 0 0 (-20) := by
  intro hEq
  rw [update_modelViewMatrix_at_zero] at hEq
  have h14 := congrArg Mat4.e14 hEq
  simp only [translationMat] at h14
  norm_num at h14

/-- C1 (amended): for every timestamp `t`, the model-view matrix is recomputed
from scratch — starting at the identity each frame regardless of the previous
state, so nothing drifts or accumulates — as
`identity * translate(0, 0, -25 + 5*sin(t*0.0005)) * rotateY(t*0.001) *
rotateX(t*0.0001)`; in particular at `t = 0` it is `translate(0,0,-25)` with
no rotation. -/
theorem modelView_recomputed_from_scratch :
    (∀ (s : GLState) (now : ℝ),
      (update s now).modelViewMatrix =
        mat4mul (mat4mul (mat4mul mat4create
          (translationMat 0 0 (-25 + 5 * Real.sin (now * 0.0005))))
          (rotationYMat (now * 0.001))) (rotationXMat (now * 0.0001))) ∧
    (∀ s : GLState, (update s 0).modelViewMatrix = translationMat 0 0 (-25)) :=
  ⟨update_modelViewMatrix, update_modelViewMatrix_at_zero⟩

/-- C2: the projection matrix is computed once at startup as
`perspective(PI/4, aspect, 0.1, 1000)`; no frame recomputes it, so after any
sequence of frames it is unchanged and every per-frame upload of the
projection uniform carries that same matrix; and the gl-matrix perspective
computation equals the textbook closed-form perspective matrix. -/
theorem projection_matrix_invariant (aspect : ℝ) (ts : List ℝ) :
    (initState aspect).projectionMatrix =
      mat4perspective (Real.pi / 4) aspect 0.1 1000 ∧
    (∀ (s : GLState) (now : ℝ),
      (update s now).projectionMatrix = s.projectionMatrix) ∧
    (runFrames (initState aspect) (0 :: ts)).projectionMatrix =
      mat4perspective (Real.pi / 4) aspect 0.1 1000 ∧
    (∀ m ∈ (runFrames (initState aspect) (0 :: ts)).projectionUploads,
      m = mat4perspective (Real.pi / 4) aspect 0.1 1000) ∧
    (∀ fovy a near far : ℝ,
      mat4perspective fovy a near far = perspectiveClosedForm fovy a near far) := by
  refine ⟨rfl, update_projectionMatrix, ?_, ?_, ?_⟩
  · rw [runFrames_projectionMatrix]
    rfl
  · intro m hm
    rw [runFrames_projectionUploads] at hm
    simp only [initState, List.nil_append, List.mem_map] at hm
    obtain ⟨t, -, rfl⟩ := hm
    rfl
  · intro fovy a near far
    ext <;> simp [mat4perspective, perspectiveClosedForm] <;> ring

/-- C9: each frame issues exactly one indexed draw call — triangle topology
over the triangle index buffer, with the vertex-offset uniform at 0 — and
over any run every recorded draw is that call, so no line-topology pass over
the line index buffer ever occurs. -/
theorem single_triangle_draw_per_frame (aspect : ℝ) (ts : List ℝ) :
    (∀ (s : GLState) (now : ℝ),
      (update s now).draws =
        s.draws ++ [⟨Topology.triangles, indicesCount,
          some BufferId.indexBuffer, 0⟩]) ∧
    (runFrames (initState aspect) (0 :: ts)).draws.length = (0 :: ts).length ∧
    (∀ dc ∈ (runFrames (initState aspect) (0 :: ts)).draws,
      dc.mode = Topology.triangles ∧
      dc.elementBuffer = some BufferId.indexBuffer ∧
      dc.count = indicesCount ∧
      dc.vertexOffset = 0) := by
  refine ⟨update_draws, ?_, ?_⟩
  · rw [runFrames_draws]
    simp [initState]
  · intro dc hdc
    rw [runFrames_draws] at hdc
    simp only [initState, List.nil_append, List.mem_map] at hdc
    obtain ⟨t, -, rfl⟩ := hdc
    exact ⟨rfl, rfl, rfl, rfl⟩

/-! Helper lemmas about `u = Math.sqrt(1/3)`. -/

lemma u_nonneg : 0 ≤ u := Real.sqrt_nonneg _

lemma u_pos : 0 < u := Real.sqrt_pos.mpr (by norm_num)

lemma u_sq : u ^ 2 = 1 / 3 := Real.sq_sqrt (by norm_num)

lemma abs_u : |u| = Real.sqrt (1 / 3) := abs_of_nonneg u_nonneg

lemma abs_neg_u : |(-u)| = Real.sqrt (1 / 3) := by
  rw [abs_neg]; exact abs_u

/-- C7: each of the 8 per-vertex normal-average vectors has squared magnitude
1 (each component has absolute value `sqrt(1/3)`), and each component has the
same strict sign as the corresponding component of that vertex's position
(the vector points outward from the cube center). -/
theorem normal_averages_unit_and_outward : ∀ i : Fin 8,
    ((normalOf i.val).1 ^ 2 + (normalOf i.val).2.1 ^ 2 +
        (normalOf i.val).2.2 ^ 2 = 1) ∧
    |(normalOf i.val).1| = Real.sqrt (1 / 3) ∧
    |(normalOf i.val).2.1| = Real.sqrt (1 / 3) ∧
    |(normalOf i.val).2.2| = Real.sqrt (1 / 3) ∧
    0 < (normalOf i.val).1 * (positionOf i.val).1 ∧
    0 < (normalOf i.val).2.1 * (positionOf i.val).2.1 ∧
    0 < (normalOf i.val).2.2 * (positionOf i.val).2.2 := by
  intro i
  fin_cases i
  · show (-u) ^ 2 + (-u) ^ 2 + u ^ 2 = 1 ∧
        |(-u)| = Real.sqrt (1 / 3) ∧ |(-u)| = Real.sqrt (1 / 3) ∧
        |u| = Real.sqrt (1 / 3) ∧
        0 < -u * ((-1 : ℚ) : ℝ) ∧ 0 < -u * ((-2 : ℚ) : ℝ) ∧ 0 < u * ((1 : ℚ) : ℝ)
    refine ⟨by linear_combination (3 : ℝ) * u_sq, abs_neg_u, abs_neg_u, abs_u,
      ?_, ?_, ?_⟩ <;> (push_cast; nlinarith [u_pos])
  · show u ^ 2 + (-u) ^ 2 + u ^ 2 = 1 ∧
        |u| = Real.sqrt (1 / 3) ∧ |(-u)| = Real.sqrt (1 / 3) ∧
        |u| = Real.sqrt (1 / 3) ∧
        0 < u * ((4 : ℚ) : ℝ) ∧ 0 < -u * ((-2 : ℚ) : ℝ) ∧ 0 < u * ((1 : ℚ) : ℝ)
    refine ⟨by linear_combination (3 : ℝ) * u_sq, abs_u, abs_neg_u, abs_u,
      ?_, ?_, ?_⟩ <;> (push_cast; nlinarith [u_pos])
  · show u ^ 2 + u ^ 2 + u ^ 2 = 1 ∧
        |u| = Real.sqrt (1 / 3) ∧ |u| = Real.sqrt (1 / 3) ∧
        |u| = Real.sqrt (1 / 3) ∧
        0 < u * ((1 : ℚ) : ℝ) ∧ 0 < u * ((2 : ℚ) : ℝ) ∧ 0 < u * ((1 : ℚ) : ℝ)
    refine ⟨by linear_combination (3 : ℝ) * u_sq, abs_u, abs_u, abs_u,
      ?_, ?_, ?_⟩ <;> (push_cast; nlinarith [u_pos])
  · show (-u) ^ 2 + u ^ 2 + u ^ 2 = 1 ∧
        |(-u)| = Real.sqrt (1 / 3) ∧ |u| = Real.sqrt (1 / 3) ∧
        |u| = Real.sqrt (1 / 3) ∧
        0 < -u * ((-4 : ℚ) : ℝ) ∧ 0 < u * ((2 : ℚ) : ℝ) ∧ 0 < u * ((1 : ℚ) : ℝ)
    refine ⟨by linear_combination (3 : ℝ) * u_sq, abs_neg_u, abs_u, abs_u,
      ?_, ?_, ?_⟩ <;> (push_cast; nlinarith [u_pos])
  · show (-u) ^ 2 + (-u) ^ 2 + (-u) ^ 2 = 1 ∧
        |(-u)| = Real.sqrt (1 / 3) ∧ |(-u)| = Real.sqrt (1 / 3) ∧
        |(-u)| = Real.sqrt (1 / 3) ∧
        0 < -u * ((-10 : ℚ) : ℝ) ∧ 0 < -u * ((-1 : ℚ) : ℝ) ∧
        0 < -u * ((-1 : ℚ) : ℝ)
    refine ⟨by linear_combination (3 : ℝ) * u_sq, abs_neg_u, abs_neg_u, abs_neg_u,
      ?_, ?_, ?_⟩ <;> (push_cast; nlinarith [u_pos])
  · show (-u) ^ 2 + u ^ 2 + (-u) ^ 2 = 1 ∧
        |(-u)| = Real.sqrt (1 / 3) ∧ |u| = Real.sqrt (1 / 3) ∧
        |(-u)| = Real.sqrt (1 / 3) ∧
        0 < -u * ((-10 : ℚ) : ℝ) ∧ 0 < u * ((1 : ℚ) : ℝ) ∧
        0 < -u * ((-1 : ℚ) : ℝ)
    refine ⟨by linear_combination (3 : ℝ) * u_sq, abs_neg_u, abs_u, abs_neg_u,
      ?_, ?_, ?_⟩ <;> (push_cast; nlinarith [u_pos])
  · show u ^ 2 + u ^ 2 + (-u) ^ 2 = 1 ∧
        |u| = Real.sqrt (1 / 3) ∧ |u| = Real.sqrt (1 / 3) ∧
        |(-u)| = Real.sqrt (1 / 3) ∧
        0 < u * ((10 : ℚ) : ℝ) ∧ 0 < u * ((1 : ℚ) : ℝ) ∧
        0 < -u * ((-1 : ℚ) : ℝ)
    refine ⟨by linear_combination (3 : ℝ) * u_sq, abs_u, abs_u, abs_neg_u,
      ?_, ?_, ?_⟩ <;> (push_cast; nlinarith [u_pos])
  · show u ^ 2 + (-u) ^ 2 + (-u) ^ 2 = 1 ∧
        |u| = Real.sqrt (1 / 3) ∧ |(-u)| = Real.sqrt (1 / 3) ∧
        |(-u)| = Real.sqrt (1 / 3) ∧
        0 < u * ((10 : ℚ) : ℝ) ∧ 0 < -u * ((-1 : ℚ) : ℝ) ∧
        0 < -u * ((-1 : ℚ) : ℝ)
    refine ⟨by linear_combination (3 : ℝ) * u_sq, abs_u, abs_neg_u, abs_neg_u,
      ?_, ?_, ?_⟩ <;> (push_cast; nlinarith [u_pos])

/-- C3: the only error paths are at startup.  If a shader fails to compile,
the diagnostic log is surfaced, the shader is deleted, and
`'shader compilation error'` propagates out of `onload`; if linking fails the
log is surfaced and `'program link error'` propagates.  Every run either
succeeds or fails with one of these two errors; a startup error does not
depend on the frame timestamps (the render loop is never entered); and when
startup succeeds the per-frame path runs every frame without any error. -/
theorem startup_error_handling (gl : GLContext) (fragSrc vertSrc : String)
    (aspect : ℝ) (ts : List ℝ) :
    (gl.compileOk ShaderType.vertex vertSrc = false →
      (onloadModel gl fragSrc vertSrc aspect ts).1 =
        Except.error "shader compilation error" ∧
      Action.deleteShader ShaderType.vertex ∈
        (onloadModel gl fragSrc vertSrc aspect ts).2 ∧
      Action.consoleErrorCompile vertSrc (gl.shaderInfoLog ShaderType.vertex) ∈
        (onloadModel gl fragSrc vertSrc aspect ts).2) ∧
    (gl.compileOk ShaderType.vertex vertSrc = true →
      gl.compileOk ShaderType.fragment fragSrc = false →
      (onloadModel gl fragSrc vertSrc aspect ts).1 =
        Except.error "shader compilation error" ∧
      Action.deleteShader ShaderType.fragment ∈
        (onloadModel gl fragSrc vertSrc aspect ts).2 ∧
      Action.consoleErrorCompile fragSrc (gl.shaderInfoLog ShaderType.fragment) ∈
        (onloadModel gl fragSrc vertSrc aspect ts).2) ∧
    (gl.compileOk ShaderType.vertex vertSrc = true →
      gl.compileOk ShaderType.fragment fragSrc = true →
      gl.linkOk = false →
      (onloadModel gl fragSrc vertSrc aspect ts).1 =
        Except.error "program link error" ∧
      Action.consoleErrorLink gl.programInfoLog ∈
        (onloadModel gl fragSrc vertSrc aspect ts).2) ∧
    ((∃ st, (onloadModel gl fragSrc vertSrc aspect ts).1 = Except.ok st) ∨
      (onloadModel gl fragSrc vertSrc aspect ts).1 =
        Except.error "shader compilation error" ∨
      (onloadModel gl fragSrc vertSrc aspect ts).1 =
        Except.error "program link error") ∧
    (∀ e, (onloadModel gl fragSrc vertSrc aspect ts).1 = Except.error e →
      ∀ ts' : List ℝ,
        (onloadModel gl fragSrc vertSrc aspect ts').1 = Except.error e) ∧
    (gl.compileOk ShaderType.vertex vertSrc = true →
      gl.compileOk ShaderType.fragment fragSrc = true →
      gl.linkOk = true →
      (onloadModel gl fragSrc vertSrc aspect ts).1 =
        Except.ok (runFrames (initState aspect) (0 :: ts))) := by
  by_cases hv : gl.compileOk ShaderType.vertex vertSrc <;>
    by_cases hf : gl.compileOk ShaderType.fragment fragSrc <;>
    by_cases hl : gl.linkOk <;>
    simp [onloadModel, initShaderProgram, loadShader, hv, hf, hl]

/-- Witness for the startup error theorem: on a context where compilation
always fails, `onload` aborts with `'shader compilation error'`. -/
theorem startup_error_handling_witness :
    (onloadModel glFailCompile "f" "v" 1 []).1 =
      Except.error "shader compilation error" :=
  ((startup_error_handling glFailCompile "f" "v" 1 []).1 rfl).1

end WebGLOutline
